import Mathlib

/-!
Verification of the `sui-kit` orchestration facade (`src/sui-kit/lib/sui-kit.ts`).

The repository file under `src/` is the `SuiKit` facade.  Its collaborators
(`SuiAccountManager` in `sui-account-manager.ts`, `SuiRpcProvider` in
`sui-rpc-provider.ts`, `composeTransferSuiTxn` in `transfer-sui.ts`, and
`SuiPackagePublisher` in `sui-package-publisher.ts`) are files of the same
repository that are not included; where a property depends on them they are
modelled from the specification, as marked in their doc comments.  The facade
itself is embedded directly from the TypeScript source: stateful methods are
state-passing functions, `async` methods that may reject return `Except`, and
methods whose observable effect is a collaborator call return a record of the
arguments that reach the collaborator.
-/

namespace SuiKitSpec

/-- `DerivePathParams` (BIP44-style path parameters, `sui-account-manager.ts`):
`accountIndex` (default 0), `isExternal` (default true), `addressIndex`
(default 0).  Indices are JavaScript numbers, modelled as integers. -/
structure DerivePathParams where
  accountIndex : Int := 0
  isExternal : Bool := true
  addressIndex : Int := 0
deriving DecidableEq, Repr

/-- A derived keypair: public key and private scalar, each an abstract word. -/
structure KeyPair where
  pubKey : Nat
  privKey : Nat
deriving DecidableEq, Repr

/-- One round of deterministic mixing over 64-bit words, standing in for the
hash step of hardened child-key derivation. -/
def mixStep (acc lvl : Nat) : Nat :=
  (acc * 2654435761 + lvl + 0x9e3779b9) % 2 ^ 64

/-- Modelled from the spec: the DerivationEngine (§4.2), a pure function
`(seed, path) → KeyPair` performing hardened hierarchical derivation at the
five levels purpose / coin-type / account / change / index, with
change = 0 when `isExternal` and 1 otherwise (§3); the engine itself lives in
`sui-account-manager.ts`, which is not included. -/
def derive (seed : Nat) (p : DerivePathParams) : KeyPair :=
  let s1 := mixStep seed 44
  let s2 := mixStep s1 784
  let s3 := mixStep s2 p.accountIndex.toNat
  let s4 := mixStep s3 (if p.isExternal then 0 else 1)
  let s5 := mixStep s4 p.addressIndex.toNat
  { pubKey := mixStep s5 1, privKey := s5 }

/-- The chain's address-from-public-key scheme, an injective-enough pure map. -/
def addressOf (kp : KeyPair) : Nat := mixStep kp.pubKey 2

/-- Modelled from the spec: a mnemonic phrase encodes master-seed entropy
(glossary); the word-string is abstracted to the entropy it encodes. -/
def mnemonicToSeed (mnemonic : Nat) : Nat := mixStep mnemonic 3

/-- Modelled from the spec: decoding a raw secret key (hex or base64) into its
single fixed keypair (§4.1). -/
def secretKeyToKeyPair (secretKey : Nat) : KeyPair :=
  { pubKey := mixStep secretKey 4, privKey := secretKey % 2 ^ 64 }

/-- Modelled from the spec: the SeedStore (§4.1) is either mnemonic-based
(a derivation tree over a master seed) or secretKey-based (one fixed
keypair and no derivation tree). -/
inductive SeedStore where
  | mnemonicStore (seed : Nat)
  | secretKeyStore (kp : KeyPair)
deriving DecidableEq, Repr

/-- Modelled from the spec: `SeedStore.derive` (§4.1) — mnemonic-based stores
consult the DerivationEngine; secretKey-based stores always return the single
fixed keypair regardless of path. -/
def SeedStore.deriveKey : SeedStore → DerivePathParams → KeyPair
  | .mnemonicStore seed, p => derive seed p
  | .secretKeyStore kp, _ => kp

/-- Modelled from the spec: SeedStore construction (§4.1) — when both
`mnemonics` and `secretKey` are supplied the mnemonic takes priority and the
secret key is ignored; with neither, a fresh mnemonic is generated from the
supplied entropy. -/
def mkSeedStore (mnemonics : Option Nat) (secretKey : Option Nat)
    (freshEntropy : Nat) : SeedStore :=
  match mnemonics with
  | some m => .mnemonicStore (mnemonicToSeed m)
  | none =>
    match secretKey with
    | some k => .secretKeyStore (secretKeyToKeyPair k)
    | none => .mnemonicStore (mnemonicToSeed freshEntropy)

/-- Error taxonomy of the core (spec §7). -/
inductive KitError where
  | invalidPath
  | invalidAddress
  | invalidAmount
  | networkError
deriving DecidableEq, Repr

/-- Modelled from the spec: path validation for `switchAccount` (§4.3) —
`accountIndex ≥ 0`, `addressIndex ≥ 0`, both representable as unsigned
32-bit integers. -/
def validPath (p : DerivePathParams) : Bool :=
  0 ≤ p.accountIndex && p.accountIndex < 2 ^ 32 &&
    0 ≤ p.addressIndex && p.addressIndex < 2 ^ 32

/-- `SuiAccountManager` (`sui-account-manager.ts`): the seed store plus the
session's one mutable field, `currentPath`, defaulting to `{0, true, 0}`. -/
structure SuiAccountManager where
  store : SeedStore
  currentPath : DerivePathParams := {}
deriving DecidableEq, Repr

/-- Modelled from the spec: `AccountSession.getKeyPair(path?)` (§4.3) — an
explicit path is used as given without touching `currentPath`; an omitted
path means the session's `currentPath`. -/
def SuiAccountManager.getKeyPair (am : SuiAccountManager)
    (derivePathParams : Option DerivePathParams) : KeyPair :=
  am.store.deriveKey (derivePathParams.getD am.currentPath)

/-- Modelled from the spec: `AccountSession.getAddress(path?)` (§4.3) —
resolves the keypair by the same default/override rule, then computes the
network address from the public key. -/
def SuiAccountManager.getAddress (am : SuiAccountManager)
    (derivePathParams : Option DerivePathParams) : Nat :=
  addressOf (am.getKeyPair derivePathParams)

/-- Modelled from the spec: `AccountSession.currentAddress` (§4.3), a read
that always reflects the live `currentPath`. -/
def SuiAccountManager.currentAddress (am : SuiAccountManager) : Nat :=
  addressOf (am.store.deriveKey am.currentPath)

/-- Modelled from the spec: `AccountSession.switchAccount(path)` (§4.3) —
validates the path; on failure raises `InvalidPathError` and leaves
`currentPath` unchanged; on success replaces `currentPath`.  The mutating
method is embedded state-passing: the result pairs the raised error (if any)
with the post-call manager. -/
def SuiAccountManager.switchAccount (am : SuiAccountManager)
    (p : DerivePathParams) : Option KitError × SuiAccountManager :=
  if validPath p then (none, { am with currentPath := p })
  else (some .invalidPath, am)

/-- The observable behavior of the network collaborator's faucet call for one
address: it may report success, report failure, or throw (spec §6, §9 — the
two-variant result plus the thrown case at the collaborator boundary). -/
def FaucetBehavior := Nat → Except KitError Bool

/-- Modelled from the spec: `SuiRpcProvider.requestFaucet`
(`sui-rpc-provider.ts`, not included) — delegates to the network
collaborator's faucet call and downgrades every failure to `false`: `true` on
success, `false` on reported failure or thrown error (§4.5, §7). -/
def rpcRequestFaucet (beh : FaucetBehavior) (addr : Nat) : Bool :=
  match beh addr with
  | .ok b => b
  | .error _ => false

/-- Opaque publish configuration (`PublishOptions` of
`sui-package-publisher.ts`). -/
structure PublishOptions where
  flags : Nat
deriving DecidableEq, Repr

/-- The argument record reaching `SuiPackagePublisher.publishPackage`
(spec §6: `publishPackage(path, signer, options)`); an argument not supplied
at the call site arrives as `undefined`, i.e. `none`. -/
structure PublishCall where
  packagePath : String
  signer : KeyPair
  options : Option PublishOptions
deriving DecidableEq, Repr

/-- A composed transfer transaction (the output of the TransactionBuilder,
spec §6). -/
structure TransferTxn where
  dest : String
  amount : Int
deriving DecidableEq, Repr

/-- Modelled from the spec: `composeTransferSuiTxn` (`transfer-sui.ts`, not
included) — the TransactionBuilder collaborator's
`composeTransferTransaction(destination, amount) → Transaction` (§6), a total
builder of a minimal single-recipient transfer. -/
def composeTransferSuiTxn (recipient : String) (amount : Int) : TransferTxn :=
  { dest := recipient, amount := amount }

/-- `SuiKit` (the facade of `sui-kit.ts`): aggregates the account manager.
The rpc provider and package publisher hold no state the claims observe; the
network behavior is passed to the operations that consume it. -/
structure SuiKit where
  accountManager : SuiAccountManager
deriving DecidableEq, Repr

/-- `SuiKit` constructor (`sui-kit.ts` lines 45–52): forwards `mnemonics` and
`secretKey` to `new SuiAccountManager`; `freshEntropy` stands for the secure
entropy drawn when neither is given. -/
def SuiKit.mk' (mnemonics : Option Nat) (secretKey : Option Nat)
    (freshEntropy : Nat) : SuiKit :=
  { accountManager := { store := mkSeedStore mnemonics secretKey freshEntropy } }

/-- `SuiKit.getSigner` (lines 59–62): resolves the keypair through the
account manager and wraps it in a `RawSigner`; the signer is determined by
its keypair, which is what the record carries. -/
def SuiKit.getSigner (kit : SuiKit)
    (derivePathParams : Option DerivePathParams) : KeyPair :=
  kit.accountManager.getKeyPair derivePathParams

/-- `SuiKit.switchAccount` (lines 68–70): delegates to the account manager;
state-passing like the method it wraps. -/
def SuiKit.switchAccount (kit : SuiKit) (derivePathParams : DerivePathParams) :
    Option KitError × SuiKit :=
  let r := kit.accountManager.switchAccount derivePathParams
  (r.1, { kit with accountManager := r.2 })

/-- `SuiKit.getAddress` (lines 76–78): delegates to the account manager. -/
def SuiKit.getAddress (kit : SuiKit)
    (derivePathParams : Option DerivePathParams) : Nat :=
  kit.accountManager.getAddress derivePathParams

/-- `SuiKit.currentAddress` (line 79): delegates to the account manager. -/
def SuiKit.currentAddress (kit : SuiKit) : Nat :=
  kit.accountManager.currentAddress

/-- `SuiKit.requestFaucet` (lines 85–88): resolves the address for the
(optional) path, then returns `this.rpcProvider.requestFaucet(addr)`. -/
def SuiKit.requestFaucet (kit : SuiKit) (beh : FaucetBehavior)
    (derivePathParams : Option DerivePathParams) : Bool :=
  let addr := kit.accountManager.getAddress derivePathParams
  rpcRequestFaucet beh addr

/-- The argument record reaching `SuiRpcProvider.getBalance`. -/
structure BalanceQuery where
  owner : Nat
  coinType : Option String
deriving DecidableEq, Repr

/-- `SuiKit.getBalance` (lines 90–93): resolves the owner address and
forwards it with `coinType` to the rpc provider. -/
def SuiKit.getBalance (kit : SuiKit) (coinType : Option String)
    (derivePathParams : Option DerivePathParams) : BalanceQuery :=
  let owner := kit.accountManager.getAddress derivePathParams
  { owner := owner, coinType := coinType }

/-- A signing event: which transaction was signed and by which keypair. -/
structure SignRecord (τ : Type) where
  txn : τ
  signer : KeyPair
deriving DecidableEq, Repr

/-- `SuiKit.signTxn` (lines 95–98): resolves the signer and signs the
transaction block with it. -/
def SuiKit.signTxn (kit : SuiKit) (tx : TransferTxn)
    (derivePathParams : Option DerivePathParams) : SignRecord TransferTxn :=
  { txn := tx, signer := kit.getSigner derivePathParams }

/-- A sign-and-execute event: the transaction and signer reaching the network
collaborator's `executeTransaction`; `executed` records that the collaborator
call is issued. -/
structure SendRecord where
  txn : TransferTxn
  signer : KeyPair
  executed : Bool
deriving DecidableEq, Repr

/-- `SuiKit.signAndSendTxn` (lines 100–103): resolves the signer and calls
`signAndExecuteTransactionBlock`, which submits to the network — the
collaborator's execute call is issued unconditionally. -/
def SuiKit.signAndSendTxn (kit : SuiKit) (tx : TransferTxn)
    (derivePathParams : Option DerivePathParams) : SendRecord :=
  { txn := tx, signer := kit.getSigner derivePathParams, executed := true }

/-- `SuiKit.publishPackage` (lines 111–114): resolves the signer, then calls
`this.packagePublisher.publishPackage(packagePath, signer)` — the call site
passes only two arguments, so the collaborator's `options` parameter arrives
as `undefined` whatever the caller supplied. -/
def SuiKit.publishPackage (kit : SuiKit) (packagePath : String)
    (options : Option PublishOptions)
    (derivePathParams : Option DerivePathParams) : PublishCall :=
  let signer := kit.getSigner derivePathParams
  { packagePath := packagePath, signer := signer, options := none }

/-- `SuiKit.transferSui` (lines 116–119): composes the transfer transaction
from `to` and `amount`, then signs and sends it with the (optional) path. -/
def SuiKit.transferSui (kit : SuiKit) (recipient : String) (amount : Int)
    (derivePathParams : Option DerivePathParams) : SendRecord :=
  let tx := composeTransferSuiTxn recipient amount
  kit.signAndSendTxn tx derivePathParams

/-- `SuiKit.getAddress` as an explicit state transformer: the method body
(lines 76–78) only calls `accountManager.getAddress`, which never assigns to
`currentPath` (§4.3), so the post-call kit is the pre-call kit. -/
def SuiKit.getAddressSt (kit : SuiKit)
    (derivePathParams : Option DerivePathParams) : Nat × SuiKit :=
  (kit.getAddress derivePathParams, kit)

/-- `SuiKit.getSigner` as an explicit state transformer: the method body
(lines 59–62) only calls `accountManager.getKeyPair` and wraps the result,
never assigning to session state (§4.4). -/
def SuiKit.getSignerSt (kit : SuiKit)
    (derivePathParams : Option DerivePathParams) : KeyPair × SuiKit :=
  (kit.getSigner derivePathParams, kit)

/-- A faucet collaborator that always throws. -/
def behThrow : FaucetBehavior := fun _ => Except.error KitError.networkError

/-- A concrete kit used for closed witness statements. -/
def kit0 : SuiKit := SuiKit.mk' (some 7) none 0

/-- The spec's atomicity-test path with a negative account index. -/
def pathNeg : DerivePathParams :=
  { accountIndex := -1, isExternal := true, addressIndex := 0 }

/-- A concrete valid path used in witnesses. -/
def pathB : DerivePathParams :=
  { accountIndex := 2, isExternal := false, addressIndex := 10 }

/-- Another concrete valid path used in witnesses. -/
def pathC : DerivePathParams :=
  { accountIndex := 1, isExternal := true, addressIndex := 2 }

/-- A concrete valid path distinct from the default current path. -/
def pathD : DerivePathParams :=
  { accountIndex := 1, isExternal := true, addressIndex := 0 }

/-- Unfolding of `validPath` into the four index bounds of §4.3. -/
lemma validPath_iff (p : DerivePathParams) :
    validPath p = true ↔
      0 ≤ p.accountIndex ∧ p.accountIndex < 2 ^ 32 ∧
        0 ≤ p.addressIndex ∧ p.addressIndex < 2 ^ 32 := by
  simp [validPath, and_assoc]

/-- C1: for every kit, every behavior of the network collaborator's faucet
call and every optional derivation path, `requestFaucet` resolves to a
boolean that is `true` exactly when the collaborator reports success, and is
`false` whenever the collaborator throws — the exception is never
propagated. -/
theorem requestFaucet_best_effort (kit : SuiKit) (beh : FaucetBehavior)
    (p : Option DerivePathParams) :
    (kit.requestFaucet beh p = true ↔
      beh (kit.getAddress p) = Except.ok true) ∧
    (∀ e : KitError, beh (kit.getAddress p) = Except.error e →
      kit.requestFaucet beh p = false) := by
  unfold SuiKit.requestFaucet rpcRequestFaucet
  constructor
  · cases h : beh (kit.accountManager.getAddress p) with
    | ok b => cases b <;> simp [h, SuiKit.getAddress]
    | error e => simp [h, SuiKit.getAddress]
  · intro e he
    simp only [SuiKit.getAddress] at he
    simp [he]

/-- Witness for C1 at a concrete kit and a throwing collaborator. -/
theorem requestFaucet_best_effort_witness :
    kit0.requestFaucet behThrow none = false :=
  (requestFaucet_best_effort kit0 behThrow none).2 KitError.networkError rfl

/-- C2 (failing input): `publishPackage` called with explicit options drops
them — the collaborator receives `none` where the caller passed
`some { flags := 1 }`; `packagePath` and the resolved signer do pass
through. -/
theorem publishPackage_drops_options :
    (kit0.publishPackage "pkg" (some { flags := 1 }) none).options = none ∧
    (some { flags := 1 } : Option PublishOptions) ≠ none ∧
    (kit0.publishPackage "pkg" (some { flags := 1 }) none).packagePath =
      "pkg" ∧
    (kit0.publishPackage "pkg" (some { flags := 1 }) none).signer =
      kit0.getSigner none :=
  ⟨rfl, by simp, rfl, rfl⟩

/-- C3 (counterexample): `transferSui` with a malformed destination, and with
amount 0, still issues the network collaborator's execute call — it does not
fail fast before the collaborator is invoked, contradicting the claim. -/
theorem transferSui_fail_fast_cex :
    (kit0.transferSui "not-an-address" 10 none).executed = true ∧
    (kit0.transferSui "0xabc" 0 none).executed = true :=
  ⟨rfl, rfl⟩

/-- C3 (amended): `transferSui` performs no validation of destination or
amount: for every destination, amount and optional path it composes the
transfer transaction from the two arguments and unconditionally signs and
submits it, invoking the network collaborator's execute call. -/
theorem transferSui_no_validation (kit : SuiKit) (dest : String)
    (amount : Int) (p : Option DerivePathParams) :
    kit.transferSui dest amount p =
      { txn := composeTransferSuiTxn dest amount,
        signer := kit.getSigner p, executed := true } := rfl

/-- C4: `switchAccount` is atomic — a path with a negative or
not-32-bit-representable index makes it raise `InvalidPathError` and leave
the kit (hence `currentPath` and the observed address) exactly as before; a
valid path raises nothing and replaces `currentPath`. -/
theorem switchAccount_atomic (kit : SuiKit) (p : DerivePathParams) :
    (p.accountIndex < 0 ∨ 2 ^ 32 ≤ p.accountIndex ∨ p.addressIndex < 0 ∨
        2 ^ 32 ≤ p.addressIndex →
      (kit.switchAccount p).1 = some KitError.invalidPath ∧
        (kit.switchAccount p).2 = kit ∧
        (kit.switchAccount p).2.getAddress none = kit.getAddress none) ∧
    (0 ≤ p.accountIndex → p.accountIndex < 2 ^ 32 → 0 ≤ p.addressIndex →
        p.addressIndex < 2 ^ 32 →
      (kit.switchAccount p).1 = none ∧
        (kit.switchAccount p).2.accountManager.currentPath = p) := by
  constructor
  · intro h
    have hv : validPath p = false := by
      rw [Bool.eq_false_iff]
      intro hc
      rw [validPath_iff] at hc
      omega
    simp [SuiKit.switchAccount, SuiAccountManager.switchAccount, hv]
  · intro h1 h2 h3 h4
    have hv : validPath p = true := by
      rw [validPath_iff]
      exact ⟨h1, h2, h3, h4⟩
    simp [SuiKit.switchAccount, SuiAccountManager.switchAccount, hv]

/-- Witness for C4: the invalid path of the spec's atomicity test and a
concrete valid path. -/
theorem switchAccount_atomic_witness :
    ((kit0.switchAccount pathNeg).1 = some KitError.invalidPath ∧
      (kit0.switchAccount pathNeg).2 = kit0 ∧
      (kit0.switchAccount pathNeg).2.getAddress none =
        kit0.getAddress none) ∧
    ((kit0.switchAccount pathB).1 = none ∧
      (kit0.switchAccount pathB).2.accountManager.currentPath = pathB) :=
  ⟨(switchAccount_atomic kit0 pathNeg).1 (Or.inl (by decide)),
    (switchAccount_atomic kit0 pathB).2 (by decide) (by decide) (by decide)
      (by decide)⟩

/-- C5: derivation is deterministic and side-effect-free — two runs of
`derive` on the same seed and path yield an identical keypair and an
identical address. -/
theorem derive_deterministic (seed : Nat) (p : DerivePathParams) :
    derive seed p = derive seed p ∧
      addressOf (derive seed p) = addressOf (derive seed p) :=
  ⟨rfl, rfl⟩

/-- C6: every operation taking an optional derivation path gives the same
result with the path omitted as with the path explicitly equal to the
session's `currentPath`. -/
theorem default_path_resolution (kit : SuiKit) (beh : FaucetBehavior)
    (coinType : Option String) (tx : TransferTxn) (packagePath : String)
    (opts : Option PublishOptions) (dest : String) (amount : Int) :
    kit.getSigner none =
        kit.getSigner (some kit.accountManager.currentPath) ∧
      kit.getAddress none =
        kit.getAddress (some kit.accountManager.currentPath) ∧
      kit.requestFaucet beh none =
        kit.requestFaucet beh (some kit.accountManager.currentPath) ∧
      kit.getBalance coinType none =
        kit.getBalance coinType (some kit.accountManager.currentPath) ∧
      kit.signTxn tx none =
        kit.signTxn tx (some kit.accountManager.currentPath) ∧
      kit.signAndSendTxn tx none =
        kit.signAndSendTxn tx (some kit.accountManager.currentPath) ∧
      kit.publishPackage packagePath opts none =
        kit.publishPackage packagePath opts
          (some kit.accountManager.currentPath) ∧
      kit.transferSui dest amount none =
        kit.transferSui dest amount (some kit.accountManager.currentPath) :=
  ⟨rfl, rfl, rfl, rfl, rfl, rfl, rfl, rfl⟩

/-- C7: immediately after a successful `switchAccount P`, the reads
`currentAddress`, `getAddress (some P)` and `getAddress none` all return the
same address. -/
theorem switch_correctness (kit : SuiKit) (p : DerivePathParams)
    (h : validPath p = true) :
    (kit.switchAccount p).2.currentAddress =
        (kit.switchAccount p).2.getAddress (some p) ∧
      (kit.switchAccount p).2.currentAddress =
        (kit.switchAccount p).2.getAddress none := by
  simp [SuiKit.switchAccount, SuiAccountManager.switchAccount, h,
    SuiKit.currentAddress, SuiAccountManager.currentAddress,
    SuiKit.getAddress, SuiAccountManager.getAddress,
    SuiAccountManager.getKeyPair]

/-- Witness for C7 at a concrete kit and valid path. -/
theorem switch_correctness_witness :
    (kit0.switchAccount pathC).2.currentAddress =
        (kit0.switchAccount pathC).2.getAddress (some pathC) ∧
      (kit0.switchAccount pathC).2.currentAddress =
        (kit0.switchAccount pathC).2.getAddress none :=
  switch_correctness kit0 pathC (by decide)

/-- C8: reading an address or resolving a signer for an explicit path
different from `currentPath` leaves the session untouched — the post-call
kit's `currentAddress` and `currentPath` equal the pre-call ones. -/
theorem session_isolation (kit : SuiKit) (p : DerivePathParams)
    (h : p ≠ kit.accountManager.currentPath) :
    (kit.getAddressSt (some p)).2.currentAddress = kit.currentAddress ∧
      (kit.getAddressSt (some p)).2.accountManager.currentPath =
        kit.accountManager.currentPath ∧
      (kit.getSignerSt (some p)).2.accountManager.currentPath =
        kit.accountManager.currentPath :=
  ⟨rfl, rfl, rfl⟩

/-- Witness for C8 at a concrete kit and a path distinct from the current
one. -/
theorem session_isolation_witness :
    (kit0.getAddressSt (some pathD)).2.currentAddress =
        kit0.currentAddress ∧
      (kit0.getAddressSt (some pathD)).2.accountManager.currentPath =
        kit0.accountManager.currentPath ∧
      (kit0.getSignerSt (some pathD)).2.accountManager.currentPath =
        kit0.accountManager.currentPath :=
  session_isolation kit0 pathD (by decide)

/-- C9: constructing with both mnemonic and secret key derives exactly the
addresses of the mnemonic-only construction (the secret key is ignored), for
every mnemonic, key, entropy and path; and at a concrete mnemonic and
unrelated key the address differs from the secretKey-only construction. -/
theorem mnemonic_priority (m k e1 e2 : Nat) (p : Option DerivePathParams) :
    (SuiKit.mk' (some m) (some k) e1).getAddress p =
        (SuiKit.mk' (some m) none e2).getAddress p ∧
      (SuiKit.mk' (some 7) (some 99) 0).getAddress none ≠
        (SuiKit.mk' none (some 99) 0).getAddress none :=
  ⟨rfl, by decide⟩

/-- C10: the transfer transaction signed and submitted by `transferSui` is
composed from the destination and amount alone — two runs with different
optional derivation paths pass the identical transaction to signing. -/
theorem transfer_txn_path_independent (kit : SuiKit) (dest : String)
    (amount : Int) (p1 p2 : Option DerivePathParams) :
    (kit.transferSui dest amount p1).txn =
        (kit.transferSui dest amount p2).txn ∧
      (kit.transferSui dest amount p1).txn =
        composeTransferSuiTxn dest amount :=
  ⟨rfl, rfl⟩

end SuiKitSpec
